import Mathlib

/-!
Verification of the orchestration core of the Bewerbungs-Bot repository
(single source file `bot.py`): a Telegram bot that stores per-user profile
data, runs a daily job search, caches the delivered batch per user, and
generates cover letters on button callbacks.

The development shallowly embeds the relevant Python functions:

* pure string helpers mirror Python `str.strip` / `str.lower` /
  `str.split` / `int(...)` semantics (ASCII-level; the repository only
  relies on ASCII behaviour of these),
* `job_id` is embedded with a genuine MD5 implementation over the UTF-8
  bytes of the concatenated fields, exactly as
  `hashlib.md5((title + company + job_url).encode()).hexdigest()[:12]`,
* the per-user JSON files become explicit stores (`ProfileStore`,
  `CacheStore`) passed through the functions that read and write them,
* `await`-ed collaborator calls that can raise (Telegram sends, JobSpy
  search, Anthropic generation) become `Except`-valued oracle inputs and
  the Python `try/except` blocks become matches on those values.
-/

/- ── Python string primitives ──────────────────────────────────────────── -/

/-- Whitespace stripped by Python `str.strip()` (ASCII part; the inputs the
bot strips are chat text and config strings). -/
def isPySpace (c : Char) : Bool :=
  c = ' ' || c = '\t' || c = '\n' || c = '\r' || c = '\x0b' || c = '\x0c'

/-- Strip `isPySpace` characters from both ends of a character list. -/
def stripList (l : List Char) : List Char :=
  ((l.dropWhile isPySpace).reverse.dropWhile isPySpace).reverse

/-- Python `s.strip()`. -/
def pyStrip (s : String) : String := ⟨stripList s.data⟩

/-- ASCII lowercase of one character (Python `str.lower` restricted to
ASCII, which is all the bot compares against: "ok", "skip", "ja", ...). -/
def lowerChar (c : Char) : Char :=
  if c.toNat ≥ 65 && c.toNat ≤ 90 then Char.ofNat (c.toNat + 32) else c

/-- Python `s.lower()` (ASCII part). -/
def pyLower (s : String) : String := ⟨s.data.map lowerChar⟩

/-- Python `s.replace(" ", "_")` specialised to the single-character
pattern used at the attachment filename. -/
def pyReplaceSpace (s : String) : String :=
  ⟨s.data.map (fun c => if c = ' ' then '_' else c)⟩

/-- Python `s.split(sep)` for a one-character separator: keeps empty
pieces, and the split of `""` is `[""]`. -/
def splitCharList (sep : Char) : List Char → List (List Char)
  | [] => [[]]
  | c :: rest =>
      match splitCharList sep rest with
      | [] => [[]]
      | h :: t => if c = sep then [] :: h :: t else (c :: h) :: t

/-- Python `s.split(sep)` (one-character separator). -/
def pySplit (sep : Char) (s : String) : List String :=
  (splitCharList sep s.data).map String.mk

/-- Digit-sequence accumulator for Python `int(...)`: after the first
digit, single underscores are allowed between digits. -/
def pyDigitsVal : List Char → Nat → Option Nat
  | [], acc => some acc
  | '_' :: c :: rest, acc =>
      if c.isDigit then pyDigitsVal rest (acc * 10 + (c.toNat - 48)) else none
  | ['_'], _ => none
  | c :: rest, acc =>
      if c.isDigit then pyDigitsVal rest (acc * 10 + (c.toNat - 48)) else none

/-- The digits of a Python integer literal must start with a digit. -/
def pyIntDigits : List Char → Option Nat
  | [] => none
  | c :: rest => if c.isDigit then pyDigitsVal rest (c.toNat - 48) else none

/-- Signed part of Python `int(...)`. -/
def pyIntSigned : List Char → Option Int
  | '+' :: rest => (pyIntDigits rest).map Int.ofNat
  | '-' :: rest => (pyIntDigits rest).map (fun n => -(n : Int))
  | l => (pyIntDigits l).map Int.ofNat

/-- Python `int(s)`: surrounding whitespace is ignored, an optional sign,
then a non-empty digit sequence (underscores between digits allowed);
`none` models the raised `ValueError`. (ASCII digits only; the bot feeds
it chat text.) -/
def pyInt (s : String) : Option Int := pyIntSigned (stripList s.data)

/-- Python truthiness of an optional string field of the user-data dict:
`data.get(k)` is falsy when the key is missing or the value is `""`. -/
def pyFalsy : Option String → Bool
  | none => true
  | some s => s.isEmpty

/- ── UTF-8 encoding (Python `str.encode()`) ────────────────────────────── -/

/-- UTF-8 bytes of one code point. -/
def utf8Char (c : Char) : List Nat :=
  let n := c.toNat
  if n < 0x80 then [n]
  else if n < 0x800 then [0xC0 + n / 64, 0x80 + n % 64]
  else if n < 0x10000 then
    [0xE0 + n / 4096, 0x80 + (n / 64) % 64, 0x80 + n % 64]
  else
    [0xF0 + n / 262144, 0x80 + (n / 4096) % 64, 0x80 + (n / 64) % 64,
     0x80 + n % 64]

/-- Python `s.encode()` (UTF-8 bytes, as `Nat`s below 256). -/
def utf8Bytes (s : String) : List Nat := (s.data.map utf8Char).flatten

/- ── MD5 (`hashlib.md5`) ───────────────────────────────────────────────── -/

/-- The 64 MD5 sine-table constants (RFC 1321). -/
def md5K : List Nat :=
  [0xd76aa478, 0xe8c7b756, 0x242070db, 0xc1bdceee,
   0xf57c0faf, 0x4787c62a, 0xa8304613, 0xfd469501,
   0x698098d8, 0x8b44f7af, 0xffff5bb1, 0x895cd7be,
   0x6b901122, 0xfd987193, 0xa679438e, 0x49b40821,
   0xf61e2562, 0xc040b340, 0x265e5a51, 0xe9b6c7aa,
   0xd62f105d, 0x02441453, 0xd8a1e681, 0xe7d3fbc8,
   0x21e1cde6, 0xc33707d6, 0xf4d50d87, 0x455a14ed,
   0xa9e3e905, 0xfcefa3f8, 0x676f02d9, 0x8d2a4c8a,
   0xfffa3942, 0x8771f681, 0x6d9d6122, 0xfde5380c,
   0xa4beea44, 0x4bdecfa9, 0xf6bb4b60, 0xbebfbc70,
   0x289b7ec6, 0xeaa127fa, 0xd4ef3085, 0x04881d05,
   0xd9d4d039, 0xe6db99e5, 0x1fa27cf8, 0xc4ac5665,
   0xf4292244, 0x432aff97, 0xab9423a7, 0xfc93a039,
   0x655b59c3, 0x8f0ccc92, 0xffeff47d, 0x85845dd1,
   0x6fa87e4f, 0xfe2ce6e0, 0xa3014314, 0x4e0811a1,
   0xf7537e82, 0xbd3af235, 0x2ad7d2bb, 0xeb86d391]

/-- The 64 MD5 per-round left-rotation amounts. -/
def md5S : List Nat :=
  [7, 12, 17, 22, 7, 12, 17, 22, 7, 12, 17, 22, 7, 12, 17, 22,
   5, 9, 14, 20, 5, 9, 14, 20, 5, 9, 14, 20, 5, 9, 14, 20,
   4, 11, 16, 23, 4, 11, 16, 23, 4, 11, 16, 23, 4, 11, 16, 23,
   6, 10, 15, 21, 6, 10, 15, 21, 6, 10, 15, 21, 6, 10, 15, 21]

/-- 32-bit left rotation on `Nat` (inputs kept below `2 ^ 32`). -/
def rotl32 (x n : Nat) : Nat :=
  ((x <<< n) ||| (x >>> (32 - n))) % 4294967296

/-- 32-bit complement. -/
def not32 (x : Nat) : Nat := x ^^^ 0xffffffff

/-- The MD5 round mixing function for round index `i < 64`. -/
def md5F (i b c d : Nat) : Nat :=
  if i < 16 then (b &&& c) ||| (not32 b &&& d)
  else if i < 32 then (d &&& b) ||| (not32 d &&& c)
  else if i < 48 then b ^^^ c ^^^ d
  else c ^^^ (b ||| not32 d)

/-- The MD5 message-word index for round index `i < 64`. -/
def md5G (i : Nat) : Nat :=
  if i < 16 then i
  else if i < 32 then (5 * i + 1) % 16
  else if i < 48 then (3 * i + 5) % 16
  else (7 * i) % 16

/-- `k` little-endian bytes of `n` (truncating above `256 ^ k`). -/
def leBytes : Nat → Nat → List Nat
  | 0, _ => []
  | k + 1, n => (n % 256) :: leBytes k (n / 256)

/-- Interpret a byte list as little-endian 32-bit words. -/
def words16 : List Nat → List Nat
  | b0 :: b1 :: b2 :: b3 :: rest =>
      (b0 + 256 * b1 + 65536 * b2 + 16777216 * b3) :: words16 rest
  | _ => []

/-- MD5 padding: `0x80`, zeros to 56 mod 64, then the 64-bit little-endian
bit length. -/
def md5Pad (msg : List Nat) : List Nat :=
  let len := msg.length
  let zeros := (119 - len % 64) % 64
  msg ++ [0x80] ++ List.replicate zeros 0 ++ leBytes 8 (8 * len)

/-- Fuel-based split into 64-byte blocks (fuel `l.length` suffices). -/
def chunks64Aux : Nat → List Nat → List (List Nat)
  | 0, _ => []
  | _, [] => []
  | fuel + 1, l@(_ :: _) => l.take 64 :: chunks64Aux fuel (l.drop 64)

/-- Split a byte list into 64-byte blocks. -/
def chunks64 (l : List Nat) : List (List Nat) := chunks64Aux l.length l

/-- The four-word MD5 state. -/
structure MD5State where
  a : Nat
  b : Nat
  c : Nat
  d : Nat
deriving DecidableEq, Repr

/-- MD5 initial state. -/
def md5Init : MD5State := ⟨0x67452301, 0xefcdab89, 0x98badcfe, 0x10325476⟩

/-- One MD5 round step on the working state. -/
def md5Step (m : List Nat) (st : MD5State) (i : Nat) : MD5State :=
  let f := md5F i st.b st.c st.d
  let g := md5G i
  let x := (st.a + f + md5K.getD i 0 + m.getD g 0) % 4294967296
  let b' := (st.b + rotl32 x (md5S.getD i 0)) % 4294967296
  ⟨st.d, b', st.b, st.c⟩

/-- Process one 64-byte block. -/
def md5Block (st : MD5State) (block : List Nat) : MD5State :=
  let m := words16 block
  let w := (List.range 64).foldl (md5Step m) st
  ⟨(st.a + w.a) % 4294967296, (st.b + w.b) % 4294967296,
   (st.c + w.c) % 4294967296, (st.d + w.d) % 4294967296⟩

/-- MD5 of a byte message, as the final four-word state. -/
def md5Final (msg : List Nat) : MD5State :=
  (chunks64 (md5Pad msg)).foldl md5Block md5Init

/-- The 16 digest bytes (each state word little-endian). -/
def md5DigestBytes (msg : List Nat) : List Nat :=
  let st := md5Final msg
  leBytes 4 st.a ++ leBytes 4 st.b ++ leBytes 4 st.c ++ leBytes 4 st.d

/-- Lowercase hex digit. -/
def hexDigit (n : Nat) : Char :=
  Char.ofNat (if n < 10 then 48 + n else 87 + n)

/-- Two hex characters of one byte. -/
def hexPair (b : Nat) : List Char := [hexDigit (b / 16), hexDigit (b % 16)]

/-- The characters of Python `hashlib.md5(msg).hexdigest()`. -/
def md5hexChars (msg : List Nat) : List Char :=
  ((md5DigestBytes msg).map hexPair).flatten

/- ── Data model (section "Datenpersistenz" of bot.py) ──────────────────── -/

/-- One normalized job posting, the dict built in `search_jobs_sync`. -/
structure Job where
  title : String
  company : String
  location : String
  job_url : String
  description : String
  date_posted : String
  site : String
deriving DecidableEq, Repr

/-- The saved `job_prefs` dict written by `jobsetup_time`. Hour and minute
are `Int` because `int(...)` accepts signed values and the code commits
whatever was parsed. -/
structure JobPrefs where
  title : String
  location : String
  keywords : String
  remote : Bool
  hour : Int
  minute : Int
deriving DecidableEq, Repr

/-- The per-user data dict stored in `{user_id}_data.json`. A missing file
loads as `{}`, i.e. all fields at their defaults. -/
structure UserData where
  lebenslauf : Option String := none
  muster : Option String := none
  job_prefs : Option JobPrefs := none
  job_alert_active : Bool := false
deriving DecidableEq, Repr

/-- The collection of `{user_id}_data.json` files (`load_user_data` /
`save_user_data`), as a total map defaulting to the empty record. -/
abbrev ProfileStore := Int → UserData

/-- No user file exists yet. -/
def emptyProfiles : ProfileStore := fun _ => {}

/-- `save_user_data`: overwrite one user's record. -/
def updUser (store : ProfileStore) (uid : Int) (d : UserData) : ProfileStore :=
  fun u => if u = uid then d else store u

/- ── Item identity and Item Cache ──────────────────────────────────────── -/

/-- `job_id(job)` from bot.py:
`hashlib.md5((title + company + job_url).encode()).hexdigest()[:12]`. -/
def job_id (job : Job) : String :=
  ⟨(md5hexChars (utf8Bytes (job.title ++ job.company ++ job.job_url))).take 12⟩

/-- The JSON object stored in `{user_id}_jobs.json`: keys in insertion
order, later duplicate keys overwrite in place (Python dict). -/
abbrev JobDict := List (String × Job)

/-- Python dict assignment `d[k] = v`: update in place or append. -/
def dictSet : JobDict → String → Job → JobDict
  | [], k, v => [(k, v)]
  | (k', v') :: rest, k, v =>
      if k' = k then (k', v) :: rest else (k', v') :: dictSet rest k v

/-- Python `d.get(k)` (keys are unique by construction). -/
def pyDictGet : JobDict → String → Option Job
  | [], _ => none
  | (k', v) :: rest, k => if k' = k then some v else pyDictGet rest k

/-- The dict comprehension in `save_job_cache`. -/
def pyDictOfJobs (jobs : List Job) : JobDict :=
  jobs.foldl (fun d j => dictSet d (job_id j) j) []

/-- The collection of `{user_id}_jobs.json` files; `none` means the file
does not exist. -/
abbrev CacheStore := Int → Option JobDict

/-- No cache file exists yet. -/
def emptyCache : CacheStore := fun _ => none

/-- `save_job_cache`: write the dict of the batch, replacing the file. -/
def save_job_cache (user_id : Int) (jobs : List Job) (st : CacheStore) :
    CacheStore :=
  fun u => if u = user_id then some (pyDictOfJobs jobs) else st u

/-- `load_job_from_cache`: `None` when the file is missing, else
`cache.get(jid)`. -/
def load_job_from_cache (user_id : Int) (jid : String) (st : CacheStore) :
    Option Job :=
  match st user_id with
  | none => none
  | some cache => pyDictGet cache jid

/- ── `send_jobs_to_user` ───────────────────────────────────────────────── -/

/-- The outbound messages of `send_jobs_to_user` (text formatting itself is
a spec non-goal; the callback payload string and link are kept because the
resolver consumes them). -/
inductive Msg
  | noResults
  | header (count : Nat)
  | jobMsg (callbackData : String) (url : String)
deriving DecidableEq, Repr

/-- `send_jobs_to_user`: with an empty batch it sends the "no results"
notice and returns **without touching the cache**; otherwise it overwrites
the user's cache with the batch, then sends the header and one message per
job carrying the `"anschreiben:{user_id}:{jid}"` action. -/
def send_jobs_to_user (user_id : Int) (jobs : List Job) (st : CacheStore) :
    CacheStore × List Msg :=
  if jobs.isEmpty then (st, [Msg.noResults])
  else
    (save_job_cache user_id jobs st,
     Msg.header jobs.length ::
       jobs.map (fun j =>
         Msg.jobMsg ("anschreiben:" ++ toString user_id ++ ":" ++ job_id j)
           j.job_url))

/- ── `search_jobs_sync` ────────────────────────────────────────────────── -/

/-- One raw row of the scraped dataframe, after Python `str(...)` of each
accessed column (the loop applies `str(row.get(...))` to every field). -/
structure Row where
  title : String
  company : String
  location : String
  job_url : String
  description : String
  date_posted : String
  site : String
deriving DecidableEq, Repr

/-- The normalized dict appended per row: every field stripped, the
description sliced to 4000 characters first. -/
def normalizeRow (r : Row) : Job :=
  { title := pyStrip r.title
    company := pyStrip r.company
    location := pyStrip r.location
    job_url := pyStrip r.job_url
    description := pyStrip ⟨r.description.data.take 4000⟩
    date_posted := pyStrip r.date_posted
    site := pyStrip r.site }

/-- The accumulation loop of `search_jobs_sync`: append row by row and
break as soon as ten jobs are collected. -/
def searchLoop : List Row → List Job → List Job
  | [], acc => acc
  | r :: rs, acc =>
      let acc2 := acc ++ [normalizeRow r]
      if 10 ≤ acc2.length then acc2 else searchLoop rs acc2

/-- `search_jobs_sync` on the rows returned by the scraper (the scraper
call itself is the external Job Source; an error or empty frame yields the
empty row list before this loop). -/
def search_jobs_sync (rows : List Row) : List Job := searchLoop rows []

/- ── `daily_job_search` (the daily scheduler run) ──────────────────────── -/

/-- Oracle outcomes of one user's awaited collaborator calls inside the
`try` block of `daily_job_search`: the "searching" notice send, the job
search, and the delivery of the results (the sends performed by
`send_jobs_to_user`). `Except.error e` models the call raising `e`. -/
structure UserEnv where
  noticeRes : Except String Unit
  searchRes : Except String (List Job)
  deliverRes : Except String Unit
deriving Repr

/-- Completed effects of one user's cycle, in program order. -/
inductive CEv
  | noticed
  | searched (jobs : List Job)
  | delivered (jobs : List Job)
deriving DecidableEq, Repr

/-- The body of the per-user `try` block: send the notice, search, then
deliver; the first raising call aborts the rest of the body and its
exception is the caught value. -/
def userCycle (env : UserEnv) : List CEv × Option String :=
  match env.noticeRes with
  | .error e => ([], some e)
  | .ok _ =>
      match env.searchRes with
      | .error e => ([CEv.noticed], some e)
      | .ok jobs =>
          match env.deliverRes with
          | .error e => ([CEv.noticed, CEv.searched jobs], some e)
          | .ok _ =>
              ([CEv.noticed, CEv.searched jobs, CEv.delivered jobs], none)

/-- What the run records for one user: the effects that completed and the
exception caught and logged by the per-user `except`, if any. -/
structure UserOutcome where
  events : List CEv
  caught : Option String
deriving DecidableEq, Repr

/-- The `for uid in user_ids` loop of `daily_job_search` with its per-user
`try/except`: every caught exception is logged and the loop continues. -/
def daily_job_search_model (envOf : Int → UserEnv) :
    List Int → List (Int × UserOutcome)
  | [] => []
  | uid :: rest =>
      let out := userCycle (envOf uid)
      (uid, { events := out.1, caught := out.2 }) ::
        daily_job_search_model envOf rest

/- ── Conversation flows (`ConversationHandler` configurations) ─────────── -/

/-- Default daily digest time (`DAILY_HOUR`/`DAILY_MINUTE` environment
variables; their documented defaults). -/
def DAILY_HOUR : Int := 6

/-- Default digest minute. -/
def DAILY_MINUTE : Int := 0

/-- States of the document-setup conversation. -/
inductive DocState | choice | cv | muster
deriving DecidableEq, Repr

/-- States of the job-preferences conversation. -/
inductive JobState | titleQ | locationQ | keywordsQ | remoteQ | timeQ
deriving DecidableEq, Repr

/-- One inbound update while a conversation is active: a plain (non-command)
text message, a document upload (already text-extracted: the Document
Extractor is an external collaborator), or the `/abbrechen` fallback. -/
inductive Inp | text (s : String) | doc (content : String) | cancel
deriving DecidableEq, Repr

/-- What the handler returns to the conversation driver: the next state, or
`ConversationHandler.END`, or an uncaught exception (PTB then keeps the
state; no further effects happen). -/
inductive Next (σ : Type)
  | cont (s : σ)
  | terminated
  | crashed
deriving DecidableEq, Repr

/-- `context.user_data`: the transient per-user conversation session. -/
structure Session where
  setup_choice : Option String := none
  job_title : Option String := none
  job_location : Option String := none
  job_keywords : Option String := none
  job_remote : Option Bool := none
deriving DecidableEq, Repr

/-- The reply prompts of the two flows, as tags (message wording is a spec
non-goal). -/
inductive ConvMsg
  | askCv | askMuster | badChoice | processing | savedCv
  | savedCvThenMuster | savedMuster | cancelled
  | askLocation | askKeywords | askRemote | askTime | invalidTime
  | savedPrefs
deriving DecidableEq, Repr

/-- Result of one conversation step: next state, session, profile store,
replies sent. -/
structure StepRes (σ : Type) where
  next : Next σ
  sess : Session
  store : ProfileStore
  replies : List ConvMsg

/-- `setup_choice`: record the choice, then branch on `"1"`, `"3"`, `"2"`,
re-asking on anything else. -/
def setup_choice (inp : String) (sess : Session) (store : ProfileStore) :
    StepRes DocState :=
  let choice := pyStrip inp
  let sess' := { sess with setup_choice := some choice }
  if choice = "1" || choice = "3" then ⟨.cont .cv, sess', store, [.askCv]⟩
  else if choice = "2" then ⟨.cont .muster, sess', store, [.askMuster]⟩
  else ⟨.cont .choice, sess', store, [.badChoice]⟩

/-- `setup_cv`: store the extracted document text as `lebenslauf`
immediately, then either continue to the sample-collection state (choice
`"3"`) or end. -/
def setup_cv (uid : Int) (content : String) (sess : Session)
    (store : ProfileStore) : StepRes DocState :=
  let d := store uid
  let store' := updUser store uid { d with lebenslauf := some content }
  if sess.setup_choice = some "3" then
    ⟨.cont .muster, sess, store', [.processing, .savedCvThenMuster]⟩
  else ⟨.terminated, sess, store', [.processing, .savedCv]⟩

/-- `setup_muster`: store the sample and end. -/
def setup_muster (uid : Int) (content : String) (sess : Session)
    (store : ProfileStore) : StepRes DocState :=
  let d := store uid
  ⟨.terminated, sess, updUser store uid { d with muster := some content },
   [.processing, .savedMuster]⟩

/-- `setup_cancel`: reply and end, no writes. -/
def setup_cancel (sess : Session) (store : ProfileStore) : StepRes DocState :=
  ⟨.terminated, sess, store, [.cancelled]⟩

/-- One step of the document-setup `ConversationHandler`: `/abbrechen` hits
the fallback in every state; a text is only handled in the choice state and
a document only in the two collection states (an update no state's filter
matches leaves the conversation where it is). -/
def docStep (uid : Int) (st : DocState) (inp : Inp) (sess : Session)
    (store : ProfileStore) : StepRes DocState :=
  match inp with
  | .cancel => setup_cancel sess store
  | .text s =>
      match st with
      | .choice => setup_choice s sess store
      | _ => ⟨.cont st, sess, store, []⟩
  | .doc c =>
      match st with
      | .cv => setup_cv uid c sess store
      | .muster => setup_muster uid c sess store
      | .choice => ⟨.cont .choice, sess, store, []⟩

/-- `jobsetup_title`: record the stripped title, ask for the location. -/
def jobsetup_title (inp : String) (sess : Session) (store : ProfileStore) :
    StepRes JobState :=
  ⟨.cont .locationQ, { sess with job_title := some (pyStrip inp) }, store,
   [.askLocation]⟩

/-- `jobsetup_location`: record the stripped location, ask for keywords. -/
def jobsetup_location (inp : String) (sess : Session) (store : ProfileStore) :
    StepRes JobState :=
  ⟨.cont .keywordsQ, { sess with job_location := some (pyStrip inp) }, store,
   [.askKeywords]⟩

/-- `jobsetup_keywords`: `"skip"` (case-insensitive) means no keywords. -/
def jobsetup_keywords (inp : String) (sess : Session) (store : ProfileStore) :
    StepRes JobState :=
  let raw := pyStrip inp
  ⟨.cont .remoteQ,
   { sess with job_keywords := some (if pyLower raw = "skip" then "" else raw) },
   store, [.askRemote]⟩

/-- `jobsetup_remote`: remote-only iff the answer is one of
`ja`/`yes`/`j`/`y`. -/
def jobsetup_remote (inp : String) (sess : Session) (store : ProfileStore) :
    StepRes JobState :=
  let t := pyLower (pyStrip inp)
  ⟨.cont .timeQ,
   { sess with job_remote := some (t = "ja" || t = "yes" || t = "j" || t = "y") },
   store, [.askTime]⟩

/-- The `try`-guarded time parse of `jobsetup_time`: split on `":"`,
`int(...)` the first piece, and the second piece when a colon is present
(else minute 0); any `int` failure is the caught exception. There is no
range check. -/
def pyParseTime (raw : String) : Option (Int × Int) :=
  let parts := pySplit ':' raw
  match pyInt (parts.headD "") with
  | none => none
  | some h =>
      if parts.length > 1 then
        match pyInt (parts.getD 1 "") with
        | none => none
        | some m => some (h, m)
      else some (h, 0)

/-- The commit at the end of `jobsetup_time`: build `job_prefs` from the
session (the `[]` accesses on `job_title`/`job_location` raise `KeyError`
when absent — unreachable in an intact flow) and save. -/
def commitPrefs (uid : Int) (h m : Int) (sess : Session)
    (store : ProfileStore) : StepRes JobState :=
  match sess.job_title, sess.job_location with
  | some t, some l =>
      let d := store uid
      let prefs : JobPrefs :=
        { title := t, location := l,
          keywords := sess.job_keywords.getD "",
          remote := sess.job_remote.getD false, hour := h, minute := m }
      ⟨.terminated, sess, updUser store uid { d with job_prefs := some prefs },
       [.savedPrefs]⟩
  | _, _ => ⟨.crashed, sess, store, []⟩

/-- `jobsetup_time`: strip and lowercase the input; `"ok"` commits the
defaults, otherwise a successful parse commits the parsed values and a
failed parse re-prompts the same state. -/
def jobsetup_time (uid : Int) (inp : String) (sess : Session)
    (store : ProfileStore) : StepRes JobState :=
  let raw := pyLower (pyStrip inp)
  if raw = "ok" then commitPrefs uid DAILY_HOUR DAILY_MINUTE sess store
  else
    match pyParseTime raw with
    | none => ⟨.cont .timeQ, sess, store, [.invalidTime]⟩
    | some (h, m) => commitPrefs uid h m sess store

/-- `jobsetup_cancel`: reply and end, no writes. -/
def jobsetup_cancel (sess : Session) (store : ProfileStore) :
    StepRes JobState :=
  ⟨.terminated, sess, store, [.cancelled]⟩

/-- One step of the job-preferences `ConversationHandler`: every state
handles non-command text, `/abbrechen` hits the fallback, and a document
matches no state filter. -/
def jobStep (uid : Int) (st : JobState) (inp : Inp) (sess : Session)
    (store : ProfileStore) : StepRes JobState :=
  match inp with
  | .cancel => jobsetup_cancel sess store
  | .doc _ => ⟨.cont st, sess, store, []⟩
  | .text s =>
      match st with
      | .titleQ => jobsetup_title s sess store
      | .locationQ => jobsetup_location s sess store
      | .keywordsQ => jobsetup_keywords s sess store
      | .remoteQ => jobsetup_remote s sess store
      | .timeQ => jobsetup_time uid s sess store

/- ── `callback_anschreiben` (the Action Resolver) ──────────────────────── -/

/-- Uncaught Python exceptions of the payload parse. -/
inductive PyErr | indexError | valueError
deriving DecidableEq, Repr

/-- The parse at the top of `callback_anschreiben`:
`parts = query.data.split(":")`, `user_id = int(parts[1])`,
`jid = parts[2]`. -/
def parseCb (data : String) : Except PyErr (Int × String) :=
  let parts := pySplit ':' data
  match parts.get? 1 with
  | none => .error .indexError
  | some uidStr =>
      match pyInt uidStr with
      | none => .error .valueError
      | some uid =>
          match parts.get? 2 with
          | none => .error .indexError
          | some jid => .ok (uid, jid)

/-- The listing text assembled for the generation prompt. -/
def stellentext (job : Job) : String :=
  "Stelle: " ++ job.title ++ "\nUnternehmen: " ++ job.company ++ "\nOrt: " ++
    job.location ++ "\n\nBeschreibung:\n" ++ job.description

/-- The 30-dash separator line. -/
def sepLine : String := ⟨List.replicate 30 '─'⟩

/-- The inline header `"📄 *Anschreiben – {title} @ {company}*\n" + "─"*30
+ "\n\n"`. -/
def cbHeader (job : Job) : String :=
  "📄 *Anschreiben – " ++ job.title ++ " @ " ++ job.company ++ "*\n" ++
    sepLine ++ "\n\n"

/-- Final delivery of a generated text: inline message or document upload. -/
inductive Delivery
  | inline (text : String)
  | file (content : String) (filename : String) (caption : String)
deriving DecidableEq, Repr

/-- The delivery decision at the end of `callback_anschreiben`: the full
text (header + body) is sent inline when its length is at most 4096,
otherwise the **body alone, untruncated** is uploaded as
`Anschreiben_{company with spaces replaced}.txt` with a caption. -/
def formatResult (job : Job) (anschreiben : String) : Delivery :=
  let full := cbHeader job ++ anschreiben
  if full.length ≤ 4096 then .inline full
  else
    .file anschreiben ("Anschreiben_" ++ pyReplaceSpace job.company ++ ".txt")
      ("📄 Dein Anschreiben für " ++ job.title ++ " @ " ++ job.company)

/-- The replies of the resolver, as tags plus the data they carry. -/
inductive CbReply
  | rejectNoDocs
  | rejectStale
  | progress (title company : String)
  | genError (e : String)
deriving DecidableEq, Repr

/-- Observable outcome of one callback invocation: replies in order,
the argument triple of the generation call when one was made, and the
delivery when one happened. -/
structure CbOutcome where
  replies : List CbReply
  genCalled : Option (String × String × String)
  delivery : Option Delivery
deriving DecidableEq, Repr

/-- `callback_anschreiben`: parse the payload, check the stored documents,
check the cache, call the Generation Service (`gen`, `Except.error` models
a raised provider error), and deliver. The identity of the account that
pressed the button (`sender`) arrives with the update but is never read:
every lookup uses the `user_id` taken from the payload. -/
def callback_anschreiben (gen : String → String → String → Except String String)
    (profiles : ProfileStore) (cache : CacheStore) (data : String)
    (sender : Int) : Except PyErr CbOutcome :=
  match parseCb data with
  | .error e => .error e
  | .ok (user_id, jid) =>
      let d := profiles user_id
      if pyFalsy d.lebenslauf || pyFalsy d.muster then
        .ok { replies := [.rejectNoDocs], genCalled := none, delivery := none }
      else
        match load_job_from_cache user_id jid cache with
        | none =>
            .ok { replies := [.rejectStale], genCalled := none,
                  delivery := none }
        | some job =>
            let args :=
              (d.lebenslauf.getD "", d.muster.getD "", stellentext job)
            match gen args.1 args.2.1 args.2.2 with
            | .error e =>
                .ok { replies := [.progress job.title job.company,
                                  .genError e],
                      genCalled := some args, delivery := none }
            | .ok anschreiben =>
                .ok { replies := [.progress job.title job.company],
                      genCalled := some args,
                      delivery := some (formatResult job anschreiben) }

/-- The body of an inline delivery, respectively the uploaded file content. -/
def deliveryText : Delivery → String
  | .inline t => t
  | .file c _ _ => c

/-- Whether a delivery went inline. -/
def deliveryIsInline : Delivery → Bool
  | .inline _ => true
  | .file _ _ _ => false

/- ── Concrete inputs used by witnesses and counterexamples ─────────────── -/

/-- Two fields that concatenate to the same string as `jobB`. -/
def jobA : Job := ⟨"ab", "", "", "", "", "", ""⟩

/-- Title/company split differently from `jobA`. -/
def jobB : Job := ⟨"a", "b", "", "", "", "", ""⟩

/-- Same (title, company, url) as `jobW2`, different description/date. -/
def jobW1 : Job :=
  ⟨"Dev", "Acme", "Berlin", "https://x", "alter Text", "2025-01-01", "linkedin"⟩

/-- Same (title, company, url) as `jobW1`, different description/date. -/
def jobW2 : Job :=
  ⟨"Dev", "Acme", "Berlin", "https://x", "neuer Text", "2025-01-02", "indeed"⟩

/-- A sample posting for cache and delivery scenarios. -/
def j1 : Job :=
  ⟨"Data Analyst", "Acme GmbH", "Berlin", "https://jobs.example/1",
   "Beschreibung", "2025-10-01", "linkedin"⟩

/-- A session that has completed the flow up to the time question. -/
def sessTL : Session :=
  { job_title := some "Data Analyst", job_location := some "Berlin",
    job_keywords := some "", job_remote := some false }

/-- A user whose search raises. -/
def envFail : UserEnv :=
  { noticeRes := .ok (), searchRes := .error "JobSpy Fehler",
    deliverRes := .ok () }

/-- A user whose whole cycle succeeds. -/
def envOk : UserEnv :=
  { noticeRes := .ok (), searchRes := .ok [j1], deliverRes := .ok () }

/-- A user whose "searching" notice send raises. -/
def envNoticeFail : UserEnv :=
  { noticeRes := .error "Telegram Sendefehler", searchRes := .ok [j1],
    deliverRes := .ok () }

/-- User 1 fails, everyone else succeeds. -/
def envOfW : Int → UserEnv := fun u => if u = 1 then envFail else envOk

/-- A concrete generation oracle. -/
def gen0 : String → String → String → Except String String :=
  fun a b c => .ok (a ++ b ++ c)

/-- A profile for user 2 with both documents present. -/
def profW : ProfileStore :=
  updUser emptyProfiles 2 { lebenslauf := some "LL", muster := some "MM" }

/-- Agrees with `profW` at user 2, differs elsewhere. -/
def profW2 : ProfileStore :=
  fun u => if u = 2 then profW 2 else { lebenslauf := some "anders" }

/-- A cache for user 2 holding `j1`. -/
def cacheW : CacheStore := save_job_cache 2 [j1] emptyCache

/-- Agrees with `cacheW` at user 2, differs elsewhere. -/
def cacheW2 : CacheStore := fun u => if u = 2 then cacheW 2 else some []

/-- Fifteen scraped rows with distinct titles. -/
def rows15 : List Row :=
  (List.range 15).map (fun i =>
    { title := "Stelle " ++ toString i, company := "Firma",
      location := "Berlin", job_url := "https://example.org",
      description := "Beschreibung", date_posted := "2025-10-01",
      site := "indeed" })

/-- A generated text longer than the inline limit. -/
def aLong : String := ⟨List.replicate 5000 'x'⟩

/- ── Helper lemmas ─────────────────────────────────────────────────────── -/

theorem pyDictGet_dictSet (d : JobDict) (k k2 : String) (v : Job) :
    pyDictGet (dictSet d k v) k2 =
      if k = k2 then some v else pyDictGet d k2 := by
  induction d with
  | nil => rfl
  | cons p rest ih =>
      obtain ⟨k', v'⟩ := p
      by_cases h1 : k' = k
      · subst h1
        simp only [dictSet, if_pos rfl, pyDictGet]
        by_cases h2 : k' = k2 <;> simp [h2]
      · simp only [dictSet, if_neg h1, pyDictGet]
        by_cases h2 : k' = k2
        · subst h2
          have : ¬ k = k' := fun h => h1 h.symm
          simp [this]
        · simp [h2, ih]

theorem pyDictGet_foldl_none (jobs : List Job) :
    ∀ (d : JobDict) (jid : String),
    (∀ j ∈ jobs, job_id j ≠ jid) → pyDictGet d jid = none →
    pyDictGet (jobs.foldl (fun acc j => dictSet acc (job_id j) j) d) jid
      = none := by
  induction jobs with
  | nil => intro d jid _ hd; simpa using hd
  | cons j js ih =>
      intro d jid hj hd
      simp only [List.foldl_cons]
      refine ih _ jid (fun x hx => hj x (List.mem_cons_of_mem _ hx)) ?_
      rw [pyDictGet_dictSet, if_neg (hj j (List.mem_cons_self _ _))]
      exact hd

theorem daily_map_fst (envOf : Int → UserEnv) (uids : List Int) :
    (daily_job_search_model envOf uids).map Prod.fst = uids := by
  induction uids with
  | nil => rfl
  | cons u rest ih => simp [daily_job_search_model, ih]

theorem daily_mem (envOf : Int → UserEnv) (uids : List Int) (uid : Int)
    (h : uid ∈ uids) :
    ((uid, { events := (userCycle (envOf uid)).1,
             caught := (userCycle (envOf uid)).2 }) : Int × UserOutcome)
      ∈ daily_job_search_model envOf uids := by
  induction uids with
  | nil => cases h
  | cons u rest ih =>
      rcases List.mem_cons.mp h with h1 | h1
      · subst h1; exact List.mem_cons_self _ _
      · exact List.mem_cons_of_mem _ (ih h1)

theorem userCycle_notice_error (env : UserEnv) (e : String)
    (h : env.noticeRes = .error e) : userCycle env = ([], some e) := by
  unfold userCycle
  rw [h]

theorem jobsetup_time_no_write (uid : Int) (s : String) (sess : Session)
    (store : ProfileStore) :
    (jobsetup_time uid s sess store).next ≠ Next.terminated →
    (jobsetup_time uid s sess store).store = store := by
  unfold jobsetup_time commitPrefs
  split
  · dsimp only
    split
    · intro hne; exact absurd rfl hne
    · split
      · intro _; rfl
      · intro hne; exact absurd rfl hne
  · dsimp only
    split
    · intro _; rfl
    · split
      · intro _; rfl
      · intro _; rfl

theorem searchLoop_take (rows : List Row) :
    ∀ (acc : List Job), acc.length < 10 →
    searchLoop rows acc = acc ++ (rows.take (10 - acc.length)).map normalizeRow := by
  induction rows with
  | nil => intro acc _; simp [searchLoop]
  | cons r rs ih =>
      intro acc hlt
      unfold searchLoop
      by_cases h10 : 10 ≤ (acc ++ [normalizeRow r]).length
      · rw [if_pos h10]
        have h9 : acc.length = 9 := by
          simp only [List.length_append, List.length_singleton] at h10
          omega
        have h1 : 10 - acc.length = 1 := by omega
        rw [h1]
        simp [List.take_succ_cons]
      · rw [if_neg h10]
        have hlt2 : (acc ++ [normalizeRow r]).length < 10 := by omega
        rw [ih _ hlt2]
        have h1 : 10 - acc.length = (10 - (acc ++ [normalizeRow r]).length) + 1 := by
          simp only [List.length_append, List.length_singleton]
          simp only [List.length_append, List.length_singleton] at h10
          omega
        rw [h1, List.take_succ_cons]
        simp

/- ── C1 ────────────────────────────────────────────────────────────────── -/

/-- C1 (counterexample): two postings with different (title, company, url)
triples share the same `job_id`, because the three fields are concatenated
without a separator before hashing — `("ab","","")` and `("a","b","")`
hash the same string. The claimed "only if" direction is false. -/
theorem c1_job_id_iff_fails :
    job_id jobA = job_id jobB ∧
    (jobA.title, jobA.company, jobA.job_url) ≠
      (jobB.title, jobB.company, jobB.job_url) := by
  constructor
  · have h : jobA.title ++ jobA.company ++ jobA.job_url
        = jobB.title ++ jobB.company ++ jobB.job_url := rfl
    exact congrArg
      (fun s => (⟨(md5hexChars (utf8Bytes s)).take 12⟩ : String)) h
  · decide

/-- C1 (amended): `job_id` is a pure, deterministic function of exactly the
title, company and url fields — equal triples always yield equal ids, and
description/date never influence the id. The converse direction of the
claimed "iff" does not hold (see the counterexample). -/
theorem c1_job_id_determined_by_triple : ∀ (a b : Job),
    a.title = b.title → a.company = b.company → a.job_url = b.job_url →
    job_id a = job_id b := by
  intro a b h1 h2 h3
  unfold job_id
  rw [h1, h2, h3]

/-- C1 witness: re-fetches of the same listing with changed description and
date keep the same id. -/
theorem c1_job_id_determined_by_triple_witness :
    job_id jobW1 = job_id jobW2 :=
  c1_job_id_determined_by_triple jobW1 jobW2 rfl rfl rfl

/- ── C2 ────────────────────────────────────────────────────────────────── -/

set_option maxRecDepth 8192 in
/-- C2 (counterexample): after a delivery of `[j1]` followed by a delivery
of the **empty** batch, the id of `j1` still resolves — the empty-batch
path of `send_jobs_to_user` returns before `save_job_cache`, so the cache
is not overwritten and no stale-reference rejection would occur. -/
theorem c2_empty_batch_keeps_cache :
    load_job_from_cache 1 (job_id j1)
      (send_jobs_to_user 1 [] (send_jobs_to_user 1 [j1] emptyCache).1).1
      = some j1 := by
  decide

/-- C2 (amended): a delivery with a **non-empty** batch fully overwrites
the user's ItemCache, so any id not among the new batch's ids (in
particular any id from an earlier batch not re-found) resolves to nothing;
a delivery with an empty batch leaves the cache untouched. -/
theorem c2_nonempty_delivery_purges_old_ids :
    ∀ (st : CacheStore) (uid : Int) (jobs : List Job) (jid : String),
    jobs ≠ [] → (∀ j ∈ jobs, job_id j ≠ jid) →
    load_job_from_cache uid jid (send_jobs_to_user uid jobs st).1 = none := by
  intro st uid jobs jid hne hj
  match jobs, hne with
  | j :: js, _ =>
      show load_job_from_cache uid jid
        (send_jobs_to_user uid (j :: js) st).1 = none
      simp only [send_jobs_to_user, List.isEmpty_cons, Bool.false_eq_true,
        if_false, load_job_from_cache, save_job_cache, if_pos rfl]
      exact pyDictGet_foldl_none (j :: js) [] jid hj rfl

set_option maxRecDepth 8192 in
/-- C2 witness: a fresh non-empty delivery makes an id that is not among
the batch ids unresolvable. -/
theorem c2_nonempty_delivery_purges_old_ids_witness :
    ([j1] ≠ ([] : List Job)) ∧
    load_job_from_cache 1 "zz" (send_jobs_to_user 1 [j1] emptyCache).1
      = none :=
  ⟨by decide,
   c2_nonempty_delivery_purges_old_ids emptyCache 1 [j1] "zz" (by decide)
     (by decide)⟩



/- ── C3 ────────────────────────────────────────────────────────────────── -/

/-- C3 (counterexample): the input `"25:99"` — not HH:MM with hour in 0–23
and minute in 0–59 — nevertheless advances the time state to the terminal
state and commits `hour = 25`, `minute = 99`: `jobsetup_time` int-parses
the pieces but never range-checks them. -/
theorem c3_out_of_range_commit :
    (jobsetup_time 1 "25:99" sessTL emptyProfiles).next = Next.terminated ∧
    ((jobsetup_time 1 "25:99" sessTL emptyProfiles).store 1).job_prefs =
      some { title := "Data Analyst", location := "Berlin", keywords := "",
             remote := false, hour := 25, minute := 99 } ∧
    ¬ ((25 : Int) ≤ 23) ∧ ¬ ((99 : Int) ≤ 59) := by
  decide

/-- C3 (amended): in the time-of-day state, for input other than the
acceptance token `"ok"` (after strip and lowercase) the state advances iff
the first colon-separated piece parses as an integer and, when a colon is
present, the second piece does too (no colon defaults the minute to 0);
a failing input re-prompts the same state with no store write; a passing
input commits the parsed integers **without any 0–23 / 0–59 range check**;
`"ok"` commits the defaults 6:00. -/
theorem c3_time_state_validator : ∀ (uid : Int) (inp : String)
    (sess : Session) (store : ProfileStore) (t l : String),
    sess.job_title = some t → sess.job_location = some l →
    (pyLower (pyStrip inp) ≠ "ok" →
      pyParseTime (pyLower (pyStrip inp)) = none →
      jobsetup_time uid inp sess store =
        ⟨Next.cont JobState.timeQ, sess, store, [ConvMsg.invalidTime]⟩) ∧
    (∀ h m, pyLower (pyStrip inp) ≠ "ok" →
      pyParseTime (pyLower (pyStrip inp)) = some (h, m) →
      (jobsetup_time uid inp sess store).next = Next.terminated ∧
      ((jobsetup_time uid inp sess store).store uid).job_prefs =
        some { title := t, location := l,
               keywords := sess.job_keywords.getD "",
               remote := sess.job_remote.getD false,
               hour := h, minute := m }) ∧
    (pyLower (pyStrip inp) = "ok" →
      (jobsetup_time uid inp sess store).next = Next.terminated ∧
      ((jobsetup_time uid inp sess store).store uid).job_prefs =
        some { title := t, location := l,
               keywords := sess.job_keywords.getD "",
               remote := sess.job_remote.getD false,
               hour := 6, minute := 0 }) := by
  intro uid inp sess store t l ht hl
  refine ⟨?_, ?_, ?_⟩
  · intro hne hparse
    unfold jobsetup_time
    rw [if_neg hne, hparse]
  · intro h m hne hparse
    unfold jobsetup_time
    rw [if_neg hne, hparse]
    unfold commitPrefs
    rw [ht, hl]
    exact ⟨rfl, by simp [updUser]⟩
  · intro hok
    unfold jobsetup_time
    rw [if_pos hok]
    unfold commitPrefs
    rw [ht, hl]
    exact ⟨rfl, by simp [updUser, DAILY_HOUR, DAILY_MINUTE]⟩

/-- C3 witness: `"07:30"` advances and commits 7:30. -/
theorem c3_time_state_validator_witness :
    (jobsetup_time 1 "07:30" sessTL emptyProfiles).next = Next.terminated ∧
    ((jobsetup_time 1 "07:30" sessTL emptyProfiles).store 1).job_prefs =
      some { title := "Data Analyst", location := "Berlin", keywords := "",
             remote := false, hour := 7, minute := 30 } :=
  (c3_time_state_validator 1 "07:30" sessTL emptyProfiles
    "Data Analyst" "Berlin" rfl rfl).2.1 7 30 (by decide) (by decide)

/- ── C4 ────────────────────────────────────────────────────────────────── -/

/-- C4 (counterexample): in the document flow with choice `"3"`, receiving
the CV writes `lebenslauf` to the Profile Store and then moves to the
(non-terminal) sample-collection state — a write at an intermediate state,
before any terminal state is reached; a cancel issued next would leave
that write in place. -/
theorem c4_midflow_write :
    (docStep 1 DocState.cv (Inp.doc "Mein Lebenslauf")
        { setup_choice := some "3" } emptyProfiles).next
      = Next.cont DocState.muster ∧
    ((docStep 1 DocState.cv (Inp.doc "Mein Lebenslauf")
        { setup_choice := some "3" } emptyProfiles).store 1).lebenslauf
      = some "Mein Lebenslauf" ∧
    (emptyProfiles 1).lebenslauf = none := by
  decide

/-- C4 (amended): the preference flow commits only on the terminal
transition — any step of it that does not end the conversation leaves the
Profile Store untouched — and the cancel fallback of **both** flows ends
the conversation without a write; the document flow, however, writes each
uploaded document immediately on receipt, which for the "both documents"
choice happens at an intermediate state (see the counterexample), so a
later cancel does not undo it. -/
theorem c4_commit_discipline : ∀ (uid : Int) (sess : Session)
    (store : ProfileStore) (st : JobState) (dst : DocState) (inp : Inp),
    ((jobStep uid st inp sess store).next ≠ Next.terminated →
      (jobStep uid st inp sess store).store = store) ∧
    ((jobStep uid st Inp.cancel sess store).next = Next.terminated ∧
      (jobStep uid st Inp.cancel sess store).store = store) ∧
    ((docStep uid dst Inp.cancel sess store).next = Next.terminated ∧
      (docStep uid dst Inp.cancel sess store).store = store) := by
  intro uid sess store st dst inp
  refine ⟨?_, ⟨rfl, rfl⟩, ⟨rfl, rfl⟩⟩
  cases inp with
  | cancel => intro hne; exact absurd rfl hne
  | doc c => intro _; rfl
  | text s =>
      cases st with
      | titleQ => intro _; rfl
      | locationQ => intro _; rfl
      | keywordsQ => intro _; rfl
      | remoteQ => intro _; rfl
      | timeQ => exact jobsetup_time_no_write uid s sess store

/-- C4 witness: a mid-flow preference step writes nothing, and cancel ends
both flows without a write. -/
theorem c4_commit_discipline_witness :
    (jobStep 1 JobState.titleQ (Inp.text "Dev") sessTL emptyProfiles).store
      = emptyProfiles ∧
    (jobStep 1 JobState.titleQ Inp.cancel sessTL emptyProfiles).next
      = Next.terminated ∧
    (docStep 1 DocState.choice Inp.cancel sessTL emptyProfiles).next
      = Next.terminated :=
  ⟨(c4_commit_discipline 1 sessTL emptyProfiles JobState.titleQ
      DocState.choice (Inp.text "Dev")).1 (by decide),
   (c4_commit_discipline 1 sessTL emptyProfiles JobState.titleQ
      DocState.choice (Inp.text "Dev")).2.1.1,
   (c4_commit_discipline 1 sessTL emptyProfiles JobState.titleQ
      DocState.choice (Inp.text "Dev")).2.2.1⟩

/- ── C5 ────────────────────────────────────────────────────────────────── -/

/-- C5: the daily run visits every eligible user exactly in order — the
recorded outcome list projects back to the input user list — and each
user's recorded outcome is exactly that user's own cycle (events completed
plus the caught-and-logged exception, if the cycle raised), independent of
any other user's failure: one user's exception never aborts the run. -/
theorem c5_per_user_isolation : ∀ (envOf : Int → UserEnv) (uids : List Int),
    (daily_job_search_model envOf uids).map Prod.fst = uids ∧
    (∀ uid, uid ∈ uids →
      ((uid, { events := (userCycle (envOf uid)).1,
               caught := (userCycle (envOf uid)).2 }) : Int × UserOutcome)
        ∈ daily_job_search_model envOf uids) :=
  fun envOf uids =>
    ⟨daily_map_fst envOf uids, fun uid h => daily_mem envOf uids uid h⟩

/-- C5 witness: user 1's search raises, user 2 is still processed with the
full successful cycle. -/
theorem c5_per_user_isolation_witness :
    (daily_job_search_model envOfW [1, 2]).map Prod.fst = [1, 2] ∧
    ((2, { events := (userCycle (envOfW 2)).1,
           caught := (userCycle (envOfW 2)).2 }) : Int × UserOutcome)
      ∈ daily_job_search_model envOfW [1, 2] :=
  ⟨(c5_per_user_isolation envOfW [1, 2]).1,
   (c5_per_user_isolation envOfW [1, 2]).2 2 (by decide)⟩

/- ── C7 ────────────────────────────────────────────────────────────────── -/

/-- C7 (counterexample): when the "searching" notice send raises, the
per-user `try` block is left immediately: the recorded events are empty —
the search is **not** performed and nothing is delivered to that user —
contradicting the claim that the notice is best-effort for the cycle. -/
theorem c7_notice_failure_aborts_cycle :
    daily_job_search_model (fun _ => envNoticeFail) [1]
      = [(1, { events := [], caught := some "Telegram Sendefehler" })] ∧
    CEv.searched [j1] ∉ (userCycle envNoticeFail).1 ∧
    CEv.delivered [j1] ∉ (userCycle envNoticeFail).1 := by
  decide

/-- C7 (amended): a failure of the "searching" notice is caught by the
per-user boundary and logged, and the run goes on to the remaining users —
but it aborts the failing user's own cycle: no search and no delivery
happen for that user in that run. -/
theorem c7_notice_failure_caught_not_bypassed : ∀ (envOf : Int → UserEnv)
    (uids : List Int) (uid : Int) (e : String),
    uid ∈ uids → (envOf uid).noticeRes = .error e →
    ((uid, { events := [], caught := some e }) : Int × UserOutcome)
      ∈ daily_job_search_model envOf uids ∧
    (daily_job_search_model envOf uids).map Prod.fst = uids := by
  intro envOf uids uid e hmem herr
  constructor
  · have h := daily_mem envOf uids uid hmem
    rw [userCycle_notice_error (envOf uid) e herr] at h
    exact h
  · exact daily_map_fst envOf uids

/-- C7 witness: with user 1's notice failing, the run records the caught
error with no events for user 1 and still visits the whole list. -/
theorem c7_notice_failure_caught_not_bypassed_witness :
    ((1, { events := [], caught := some "Telegram Sendefehler" })
        : Int × UserOutcome)
      ∈ daily_job_search_model (fun _ => envNoticeFail) [1, 2] ∧
    (daily_job_search_model (fun _ => envNoticeFail) [1, 2]).map Prod.fst
      = [1, 2] :=
  c7_notice_failure_caught_not_bypassed (fun _ => envNoticeFail) [1, 2] 1
    "Telegram Sendefehler" (by decide) rfl

/- ── C6 ────────────────────────────────────────────────────────────────── -/

/-- C6: when the payload-named user's profile lacks the reference document
or the style sample (missing or empty), the resolver replies with exactly
the informative rejection, makes no generation call, and its outcome does
not depend on the ItemCache at all — in particular the missing-documents
check precedes the stale-cache check. -/
theorem c6_missing_docs_rejected_before_cache :
    ∀ (gen : String → String → String → Except String String)
    (profiles : ProfileStore) (c1 c2 : CacheStore) (sender : Int)
    (data : String) (uid : Int) (jid : String),
    parseCb data = .ok (uid, jid) →
    (pyFalsy (profiles uid).lebenslauf || pyFalsy (profiles uid).muster)
      = true →
    callback_anschreiben gen profiles c1 data sender =
      .ok { replies := [CbReply.rejectNoDocs], genCalled := none,
            delivery := none } ∧
    callback_anschreiben gen profiles c1 data sender =
      callback_anschreiben gen profiles c2 data sender := by
  intro gen profiles c1 c2 sender data uid jid hp hf
  have h1 : ∀ c : CacheStore, callback_anschreiben gen profiles c data sender
      = .ok { replies := [CbReply.rejectNoDocs], genCalled := none,
              delivery := none } := by
    intro c
    unfold callback_anschreiben
    rw [hp]
    simp [hf]
  exact ⟨h1 c1, (h1 c1).trans (h1 c2).symm⟩

/-- C6 witness: user 2 has no documents stored; the callback is rejected
identically whether the cache holds the referenced item or is empty. -/
theorem c6_missing_docs_rejected_before_cache_witness :
    callback_anschreiben gen0 emptyProfiles cacheW "anschreiben:2:abc" 5 =
      .ok { replies := [CbReply.rejectNoDocs], genCalled := none,
            delivery := none } ∧
    callback_anschreiben gen0 emptyProfiles cacheW "anschreiben:2:abc" 5 =
      callback_anschreiben gen0 emptyProfiles emptyCache
        "anschreiben:2:abc" 5 :=
  c6_missing_docs_rejected_before_cache gen0 emptyProfiles cacheW emptyCache
    5 "anschreiben:2:abc" 2 "abc" rfl (by decide)

/- ── C8 ────────────────────────────────────────────────────────────────── -/

/-- C8: the delivered payload always carries the complete generated text
(a prefix header at most is added, nothing is cut); delivery is inline
exactly when header + body is at most 4096 characters; above the limit the
delivery is the attachment holding the untruncated body, named
`Anschreiben_{company, spaces replaced by underscores}.txt`, with the
descriptive caption. -/
theorem c8_inline_or_attachment : ∀ (job : Job) (a : String),
    (∃ pre, deliveryText (formatResult job a) = pre ++ a) ∧
    (deliveryIsInline (formatResult job a) = true ↔
      (cbHeader job ++ a).length ≤ 4096) ∧
    (4096 < (cbHeader job ++ a).length →
      formatResult job a =
        Delivery.file a ("Anschreiben_" ++ pyReplaceSpace job.company ++ ".txt")
          ("📄 Dein Anschreiben für " ++ job.title ++ " @ " ++ job.company)) := by
  intro job a
  unfold formatResult
  by_cases h : (cbHeader job ++ a).length ≤ 4096
  · rw [if_pos h]
    refine ⟨⟨cbHeader job, rfl⟩, iff_of_true rfl h, fun hgt => ?_⟩
    omega
  · rw [if_neg h]
    refine ⟨⟨"", rfl⟩, iff_of_false (by simp [deliveryIsInline]) h,
      fun _ => rfl⟩

/-- C8 witness: a short text goes inline, a 5000-character text becomes the
attachment with the derived filename and caption. -/
theorem c8_inline_or_attachment_witness :
    deliveryIsInline (formatResult j1 "Kurzer Text") = true ∧
    formatResult j1 aLong =
      Delivery.file aLong
        ("Anschreiben_" ++ pyReplaceSpace j1.company ++ ".txt")
        ("📄 Dein Anschreiben für " ++ j1.title ++ " @ " ++ j1.company) :=
  ⟨((c8_inline_or_attachment j1 "Kurzer Text").2.1).mpr (by decide),
   (c8_inline_or_attachment j1 aLong).2.2 (by
      have h5 : aLong.length = 5000 := by
        show (List.replicate 5000 'x').length = 5000
        rw [List.length_replicate]
      have happ := String.length_append (cbHeader j1) aLong
      omega)⟩

/- ── C9 ────────────────────────────────────────────────────────────────── -/

/-- C9: the search loop returns exactly the first min(10, n) scraped rows,
normalized, in source order — never more than ten — and on the concrete
fifteen-row input it returns exactly the first ten. -/
theorem c9_first_ten_in_order :
    (∀ rows, search_jobs_sync rows = (rows.take 10).map normalizeRow ∧
      (search_jobs_sync rows).length = min 10 rows.length) ∧
    search_jobs_sync rows15 = (rows15.take 10).map normalizeRow ∧
    (search_jobs_sync rows15).length = 10 := by
  have hmain : ∀ rows, search_jobs_sync rows = (rows.take 10).map normalizeRow := by
    intro rows
    have h := searchLoop_take rows [] (by simp)
    simpa [search_jobs_sync] using h
  refine ⟨fun rows => ⟨hmain rows, ?_⟩, hmain rows15, ?_⟩
  · rw [hmain rows]
    simp
  · rw [hmain rows15]
    simp [rows15]

/- ── C10 ───────────────────────────────────────────────────────────────── -/

/-- C10: the resolver's behaviour is a function of the payload alone, not
of who pressed the button — the sender argument never influences the
result — and the records consulted are exactly the payload-named user's:
two stores agreeing on that user's entry give identical outcomes, so a
payload naming another user resolves against that user's documents and
cache. -/
theorem c10_payload_determines_resolution :
    (∀ (gen : String → String → String → Except String String)
      (profiles : ProfileStore) (cache : CacheStore) (data : String)
      (s1 s2 : Int),
      callback_anschreiben gen profiles cache data s1 =
        callback_anschreiben gen profiles cache data s2) ∧
    (∀ (gen : String → String → String → Except String String)
      (p1 p2 : ProfileStore) (c1 c2 : CacheStore) (data : String)
      (s : Int) (uid : Int) (jid : String),
      parseCb data = .ok (uid, jid) → p1 uid = p2 uid → c1 uid = c2 uid →
      callback_anschreiben gen p1 c1 data s =
        callback_anschreiben gen p2 c2 data s) := by
  constructor
  · intro gen profiles cache data s1 s2
    rfl
  · intro gen p1 p2 c1 c2 data s uid jid hp hprof hcache
    unfold callback_anschreiben
    rw [hp]
    simp only [load_job_from_cache]
    rw [hprof, hcache]

/-- C10 witness: the same payload pressed by senders 5 and 7 resolves
identically, and stores that agree on user 2 alone resolve identically. -/
theorem c10_payload_determines_resolution_witness :
    callback_anschreiben gen0 profW cacheW "anschreiben:2:abc" 5 =
      callback_anschreiben gen0 profW cacheW "anschreiben:2:abc" 7 ∧
    callback_anschreiben gen0 profW cacheW "anschreiben:2:abc" 5 =
      callback_anschreiben gen0 profW2 cacheW2 "anschreiben:2:abc" 5 :=
  ⟨(c10_payload_determines_resolution).1 gen0 profW cacheW
      "anschreiben:2:abc" 5 7,
   (c10_payload_determines_resolution).2 gen0 profW profW2 cacheW cacheW2
      "anschreiben:2:abc" 5 2 "abc" rfl rfl rfl⟩
